import Mathlib

/-!
Verification of the blog-writer streaming service (`backend/main.py`).

The service is a FastAPI endpoint `POST /generate`: it validates the prompt,
streams blog text token-by-token from the model provider, then makes a second
model call to extract image keywords (falling back to the prompt's first three
words), fetches one Pexels image per keyword at every third paragraph (at most
two), and yields the suffix of the re-joined text as a final chunk.

The embedding below models the pure data flow of `stream_generator`,
`generate` and `fetch_single_image`.  External effects are passed in as
explicit data: the model stream is a list of optional content deltas plus an
optional exception, the keyword-extraction call is an `Except`, and the image
provider is a function `String → Option String` (the result of
`fetch_single_image` per keyword).
-/

namespace BlogWriter

/-- Whitespace class of Python's `\s` (ASCII range), used by `re.split` and
`str.split`. -/
def pyWs (c : Char) : Bool :=
  c = ' ' || c = '\t' || c = '\n' || c = '\r' || c = '\x0b' || c = '\x0c'

/-- The content delta of one stream chunk: `chunk.choices[0].delta.content or ""`
(`None` and `""` both give `""`). -/
def deltaToken (d : Option String) : String := d.getD ""

/-- The token-relay loop of `stream_generator` (main.py lines 106-110):
for each chunk, if the delta is non-empty, append it to the accumulator and
yield it.  Returns (yielded tokens, accumulated text). -/
def relayAux : List (Option String) → String → List String × String
  | [], acc => ([], acc)
  | d :: ds, acc =>
    if deltaToken d = "" then relayAux ds acc
    else
      let r := relayAux ds (acc ++ deltaToken d)
      (deltaToken d :: r.1, r.2)

/-- The tokens `stream_generator` yields during streaming, in arrival order. -/
def relayEmitted (chunks : List (Option String)) : List String :=
  (relayAux chunks "").1

/-- The accumulated `full_blog_text` after the stream drains. -/
def blogText (chunks : List (Option String)) : String :=
  (relayAux chunks "").2

/-- Concatenation of a list of strings in order. -/
def concatAll : List String → String
  | [] => ""
  | s :: rest => s ++ concatAll rest

/-- Given the text after a leading `'\n'`, the number of characters the greedy
regex `\n\s*\n` consumes from it: the whitespace run up to and including its
last `'\n'`; `none` when the run holds no `'\n'` (no match). -/
def sepConsume (cs : List Char) : Option Nat :=
  let run := cs.takeWhile pyWs
  match run.reverse.findIdx? (fun c => c = '\n') with
  | some r => some (run.length - r)
  | none => none

/-- `re.split(r'\n\s*\n', text)` over a character list: split at each leftmost
greedy match of the pattern.  `fuel` bounds the recursion (the list shrinks by
at least one character per step, so `fuel = length` always suffices). -/
def splitParasAux : Nat → List Char → List Char → List (List Char)
  | 0, acc, _ => [acc.reverse]
  | _ + 1, acc, [] => [acc.reverse]
  | fuel + 1, acc, c :: cs =>
    if c = '\n' then
      match sepConsume cs with
      | some k => acc.reverse :: splitParasAux fuel [] (cs.drop k)
      | none => splitParasAux fuel (c :: acc) cs
    else splitParasAux fuel (c :: acc) cs

/-- `paragraphs = re.split(r'\n\s*\n', full_blog_text)` (main.py line 146). -/
def splitParas (s : String) : List String :=
  (splitParasAux s.data.length [] s.data).map String.mk

/-- Python's `s[n:]` (character slice from index `n`). -/
def pySliceFrom (s : String) (n : Nat) : String := String.mk (s.data.drop n)

/-- `keyword_for_image.replace("_", " ")`: the pattern is a single character,
so the replacement is a character map. -/
def underscoreToSpace (s : String) : String :=
  String.mk (s.data.map fun c => if c = '_' then ' ' else c)

/-- Python `str.title()` for ASCII text: an alphabetic character is uppercased
after a non-alphabetic one and lowercased otherwise. -/
def pyTitleAux : Bool → List Char → List Char
  | _, [] => []
  | prevAlpha, c :: cs =>
    if c.isAlpha then
      (if prevAlpha then c.toLower else c.toUpper) :: pyTitleAux true cs
    else c :: pyTitleAux false cs

/-- Python `str.title()`. -/
def pyTitle (s : String) : String := String.mk (pyTitleAux false s.data)

/-- The Markdown inserted for one fetched image (main.py line 159). -/
def imageMarkdown (kw url : String) : String :=
  "\n\n![" ++ pyTitle (underscoreToSpace kw) ++ "](" ++ url ++ ")\n\n"

/-- Accumulator pass of Python `str.split()`: `acc` is the current word,
reversed; whitespace ends a word, empty words are dropped. -/
def pySplitAux : List Char → List Char → List (List Char)
  | acc, [] => if acc = [] then [] else [acc.reverse]
  | acc, c :: cs =>
    if pyWs c then
      if acc = [] then pySplitAux [] cs
      else acc.reverse :: pySplitAux [] cs
    else pySplitAux (c :: acc) cs

/-- Python `str.split()` with no arguments: split on whitespace runs,
dropping empty pieces. -/
def pySplit (s : String) : List String :=
  (pySplitAux [] s.data).map String.mk

/-- What the image-embedding loop (main.py lines 151-163) produces:
the parts list that is later joined, the fetch attempts made
(1-based paragraph position, keyword), and the keywords whose fetch
succeeded (one Markdown insertion each), in order. -/
structure EmbedResult where
  parts : List String
  attempts : List (Nat × String)
  inserted : List String
  deriving Repr, DecidableEq

/-- The image-embedding loop over the paragraph list: at paragraph index `i`
(0-based) with `c` images inserted so far, an image is attempted when
`c < 2 ∧ (i+1) % 3 = 0 ∧ image_keywords ∧ len(image_keywords) > c`;
on a successful fetch the Markdown is appended after the paragraph and `c`
advances. -/
def embedLoop (kws : List String) (fetch : String → Option String) :
    List String → Nat → Nat → EmbedResult
  | [], _, _ => ⟨[], [], []⟩
  | p :: ps, i, c =>
    if c < 2 ∧ (i + 1) % 3 = 0 ∧ kws ≠ [] ∧ c < kws.length then
      match fetch (kws.getD c "") with
      | some url =>
        let r := embedLoop kws fetch ps (i + 1) (c + 1)
        ⟨p :: imageMarkdown (kws.getD c "") url :: r.parts,
          (i + 1, kws.getD c "") :: r.attempts,
          kws.getD c "" :: r.inserted⟩
      | none =>
        let r := embedLoop kws fetch ps (i + 1) c
        ⟨p :: r.parts, (i + 1, kws.getD c "") :: r.attempts, r.inserted⟩
    else
      let r := embedLoop kws fetch ps (i + 1) c
      ⟨p :: r.parts, r.attempts, r.inserted⟩

/-- The post-stream phase (main.py lines 140-174): when the keyword list is
non-empty, split into paragraphs, run the embedding loop, join the parts with
`"\n\n"` and yield `final_content_with_images[len(full_blog_text):]` as one
chunk; otherwise yield nothing. -/
def postStream (full : String) (kws : List String)
    (fetch : String → Option String) : List String × EmbedResult :=
  if kws = [] then ([], ⟨[], [], []⟩)
  else
    let r := embedLoop kws fetch (splitParas full) 0 0
    ([pySliceFrom (String.intercalate "\n\n" r.parts) full.length], r)

/-- Only the chunks the post-stream phase yields. -/
def postStreamChunks (full : String) (kws : List String)
    (fetch : String → Option String) : List String :=
  (postStream full kws fetch).1

/-- The keywords the code actually uses: the second model call's `keywords`
list on success, else `user_prompt.split()[:3]` (main.py lines 120-137). -/
def usedKeywords (kwResult : Except String (List String)) (prompt : String) :
    List String :=
  match kwResult with
  | Except.ok ks => ks
  | Except.error _ => (pySplit prompt).take 3

/-- The in-band error chunk of the outer `except` (main.py line 180). -/
def errorMessage (e : String) : String :=
  "\n**Error:** An issue occurred during blog or image generation. Details: " ++ e

/-- Everything observable about one run of `stream_generator`: the yielded
chunks in order, the image-provider calls made, the keywords successfully
inserted, and whether the keyword-extraction call was reached. -/
structure GenOutput where
  emitted : List String
  fetchAttempts : List (Nat × String)
  inserted : List String
  keywordCallMade : Bool
  deriving Repr, DecidableEq

/-- `stream_generator` (main.py lines 89-182) as a function of its oracles:
`chunks` are the deltas received before the stream ends, `streamErr` an
exception raised by the provider during streaming (tokens received before it
are already yielded), `kwResult` the keyword-extraction call's outcome, and
`fetch` the image provider. -/
def stream_generator (chunks : List (Option String)) (streamErr : Option String)
    (kwResult : Except String (List String)) (prompt : String)
    (fetch : String → Option String) : GenOutput :=
  match streamErr with
  | some e => ⟨relayEmitted chunks ++ [errorMessage e], [], [], false⟩
  | none =>
    let p := postStream (blogText chunks) (usedKeywords kwResult prompt) fetch
    ⟨relayEmitted chunks ++ p.1, p.2.attempts, p.2.inserted, true⟩

/-- The observable trace of one `POST /generate` request. -/
structure RequestTrace where
  status : Nat
  errorBody : Option (List (String × String))
  stream : Option GenOutput
  modelCalls : Nat
  imageCalls : List (Nat × String)
  deriving Repr, DecidableEq

/-- The `generate` endpoint (main.py lines 66-185): an empty prompt is
rejected with a 400 JSON error before any upstream call; otherwise the
streaming response runs `stream_generator` (one model call for the stream,
a second for keywords when the stream completes). -/
def generate (prompt : String) (chunks : List (Option String))
    (streamErr : Option String) (kwResult : Except String (List String))
    (fetch : String → Option String) : RequestTrace :=
  if prompt = "" then
    ⟨400, some [("error", "No prompt provided")], none, 0, []⟩
  else
    let g := stream_generator chunks streamErr kwResult prompt fetch
    ⟨200, none, some g, if streamErr.isSome then 1 else 2, g.fetchAttempts⟩

/-- The `src` object of one Pexels photo (`photo['src']`), with optional
`large` and `medium` entries. -/
structure PhotoSrc where
  large : Option String
  medium : Option String
  deriving Repr, DecidableEq

/-- The outcome of the Pexels HTTP interaction inside `fetch_single_image`:
a `requests` exception (network error, timeout, or `raise_for_status`), any
other exception (bad JSON, missing keys), or a decoded photo list. -/
inductive PexelsOutcome where
  | requestError (msg : String)
  | otherError (msg : String)
  | ok (photos : List PhotoSrc)
  deriving Repr, DecidableEq

/-- Python's `a or b` over optional strings: `a` when it is a non-empty
string, else `b`. -/
def pyOr (a b : Option String) : Option String :=
  match a with
  | some s => if s = "" then b else some s
  | none => b

/-- `fetch_single_image` (main.py lines 38-63): skip when the Pexels key is
absent or empty (falsy); both `except` arms return `None`; an empty (falsy)
photo list returns `None`; otherwise `src.get('large') or src.get('medium')`. -/
def fetch_single_image (apiKey : Option String) (outcome : PexelsOutcome) :
    Option String :=
  if apiKey.getD "" = "" then none
  else
    match outcome with
    | PexelsOutcome.requestError _ => none
    | PexelsOutcome.otherError _ => none
    | PexelsOutcome.ok photos =>
      match photos with
      | [] => none
      | p :: _ => pyOr p.large p.medium

/-- The provider outcomes `fetch_single_image` treats as failures: an
exception of either class, or an empty result set. -/
def isProviderFailure : PexelsOutcome → Bool
  | PexelsOutcome.requestError _ => true
  | PexelsOutcome.otherError _ => true
  | PexelsOutcome.ok [] => true
  | PexelsOutcome.ok (_ :: _) => false

/-! ## Helper lemmas -/

theorem concatAll_append (a b : List String) :
    concatAll (a ++ b) = concatAll a ++ concatAll b := by
  induction a with
  | nil =>
    show concatAll b = "" ++ concatAll b
    cases h : concatAll b
    rfl
  | cons s rest ih =>
    show s ++ concatAll (rest ++ b) = s ++ concatAll rest ++ concatAll b
    rw [ih, String.append_assoc]

theorem relayAux_fst (chunks : List (Option String)) (acc : String) :
    (relayAux chunks acc).1 = (chunks.map deltaToken).filter fun t => t ≠ "" := by
  induction chunks generalizing acc with
  | nil => rfl
  | cons d ds ih =>
    by_cases h : deltaToken d = ""
    · simp [relayAux, h, ih]
    · simp [relayAux, h, ih]

theorem relayAux_snd (chunks : List (Option String)) (acc : String) :
    (relayAux chunks acc).2 = acc ++ concatAll (relayAux chunks acc).1 := by
  induction chunks generalizing acc with
  | nil => simp [relayAux, concatAll, String.append_empty]
  | cons d ds ih =>
    by_cases h : deltaToken d = ""
    · simp [relayAux, h, ih]
    · simp only [relayAux, h, if_neg]
      rw [ih (acc ++ deltaToken d)]
      show acc ++ deltaToken d ++ _ = acc ++ (deltaToken d ++ _)
      rw [String.append_assoc]

theorem concat_relayEmitted (chunks : List (Option String)) :
    concatAll (relayEmitted chunks) = blogText chunks := by
  have h := relayAux_snd chunks ""
  unfold relayEmitted blogText
  rw [h]
  cases hc : concatAll (relayAux chunks "").1
  rfl

theorem embedLoop_inserted_length (kws : List String)
    (fetch : String → Option String) (ps : List String) (i c : Nat) :
    (embedLoop kws fetch ps i c).inserted.length ≤ 2 - c := by
  induction ps generalizing i c with
  | nil => simp [embedLoop]
  | cons p ps ih =>
    unfold embedLoop
    split
    · next hguard =>
      cases hf : fetch (kws.getD c "") with
      | some url =>
        have := ih (i + 1) (c + 1)
        simp only [hf, List.length_cons]
        omega
      | none =>
        have := ih (i + 1) c
        simpa [hf] using this
    · exact ih (i + 1) c

theorem embedLoop_inserted_take (kws : List String)
    (fetch : String → Option String) (ps : List String) (i c : Nat) :
    (embedLoop kws fetch ps i c).inserted
      = (kws.drop c).take (embedLoop kws fetch ps i c).inserted.length := by
  induction ps generalizing i c with
  | nil => simp [embedLoop]
  | cons p ps ih =>
    unfold embedLoop
    split
    · next hguard =>
      have hc : c < kws.length := hguard.2.2.2
      cases hf : fetch (kws.getD c "") with
      | some url =>
        simp only [hf, List.length_cons]
        rw [List.drop_eq_getElem_cons hc, List.take_succ_cons,
          ← List.getD_eq_getElem kws "" hc]
        exact congrArg _ (ih (i + 1) (c + 1))
      | none => simpa [hf] using ih (i + 1) c
    · exact ih (i + 1) c

theorem embedLoop_attempts (kws : List String)
    (fetch : String → Option String) (ps : List String) (i c : Nat) :
    ∀ q kw, (q, kw) ∈ (embedLoop kws fetch ps i c).attempts →
      q % 3 = 0 ∧ kw ∈ kws := by
  induction ps generalizing i c with
  | nil => intro q kw h; simp [embedLoop] at h
  | cons p ps ih =>
    intro q kw h
    unfold embedLoop at h
    revert h
    split
    · next hguard =>
      have hc : c < kws.length := hguard.2.2.2
      have hmem : kws.getD c "" ∈ kws := by
        rw [List.getD_eq_getElem kws "" hc]; exact List.getElem_mem hc
      cases hf : fetch (kws.getD c "") with
      | some url =>
        simp only [hf, List.mem_cons, Prod.mk.injEq]
        rintro (⟨hq, hkw⟩ | h)
        · subst hq; subst hkw; exact ⟨hguard.2.1, hmem⟩
        · exact ih (i + 1) (c + 1) q kw h
      | none =>
        simp only [hf, List.mem_cons, Prod.mk.injEq]
        rintro (⟨hq, hkw⟩ | h)
        · subst hq; subst hkw; exact ⟨hguard.2.1, hmem⟩
        · exact ih (i + 1) c q kw h
    · exact fun h => ih (i + 1) c q kw h

theorem embedLoop_nofetch (kws : List String)
    (fetch : String → Option String) (hf : ∀ k, fetch k = none)
    (ps : List String) (i c : Nat) :
    (embedLoop kws fetch ps i c).parts = ps ∧
      (embedLoop kws fetch ps i c).inserted = [] := by
  induction ps generalizing i c with
  | nil => simp [embedLoop]
  | cons p ps ih =>
    unfold embedLoop
    split
    · next hguard =>
      rcases ih (i + 1) c with ⟨h1, h2⟩
      simp [hf, h1, h2]
    · rcases ih (i + 1) c with ⟨h1, h2⟩
      simp [h1, h2]

/-! ## Claims -/

/-- C3: for every chunk received from the provider, the relay extracts the
content delta and, exactly when it is non-empty, appends it to the
accumulator and emits it in arrival order; the concatenation of the emitted
tokens equals the accumulated full blog text. -/
theorem C3_token_relay (chunks : List (Option String)) :
    relayEmitted chunks = ((chunks.map deltaToken).filter fun t => t ≠ "") ∧
      concatAll (relayEmitted chunks) = blogText chunks :=
  ⟨relayAux_fst chunks "", concat_relayEmitted chunks⟩

/-- C4: a request with an empty prompt gets exactly one 400 response with
body `{"error": "No prompt provided"}`, and neither the model provider nor
the image provider is called. -/
theorem C4_empty_prompt (chunks : List (Option String))
    (streamErr : Option String) (kwResult : Except String (List String))
    (fetch : String → Option String) :
    generate "" chunks streamErr kwResult fetch
      = ⟨400, some [("error", "No prompt provided")], none, 0, []⟩ := rfl

/-- C5: on a model-provider error during streaming, the generator emits one
final chunk carrying the fixed `**Error:**` marker, the stream ends, and no
keyword extraction or image fetching happens after the error. -/
theorem C5_provider_error (chunks : List (Option String)) (e : String)
    (kwResult : Except String (List String)) (prompt : String)
    (fetch : String → Option String) :
    (stream_generator chunks (some e) kwResult prompt fetch).emitted
        = relayEmitted chunks ++ [errorMessage e] ∧
      errorMessage e = "\n**Error:**"
        ++ (" An issue occurred during blog or image generation. Details: " ++ e) ∧
      (stream_generator chunks (some e) kwResult prompt fetch).fetchAttempts = [] ∧
      (stream_generator chunks (some e) kwResult prompt fetch).inserted = [] ∧
      (stream_generator chunks (some e) kwResult prompt fetch).keywordCallMade = false := by
  refine ⟨rfl, ?_, rfl, rfl, rfl⟩
  rw [← String.append_assoc]
  rfl

/-- C7: the image resolver never surfaces a failure: a missing (or empty,
hence falsy) credential, a `requests` exception, any other exception, or an
empty photo list all produce `none`. -/
theorem C7_resolver_safe (apiKey : Option String) (outcome : PexelsOutcome)
    (h : apiKey = none ∨ isProviderFailure outcome = true) :
    fetch_single_image apiKey outcome = none := by
  unfold fetch_single_image
  rcases h with h | h
  · subst h; rfl
  · split
    · rfl
    · cases outcome with
      | requestError m => rfl
      | otherError m => rfl
      | ok photos =>
        cases photos with
        | nil => rfl
        | cons p ps => simp [isProviderFailure] at h

/-- C7 witness: the resolver returns `none` at concrete failure outcomes and
at a missing credential. -/
theorem C7_resolver_safe_witness :
    fetch_single_image (some "key") (PexelsOutcome.requestError "timeout") = none ∧
      fetch_single_image (some "key") (PexelsOutcome.otherError "bad json") = none ∧
      fetch_single_image (some "key") (PexelsOutcome.ok []) = none ∧
      fetch_single_image none (PexelsOutcome.ok [⟨some "u", none⟩]) = none :=
  ⟨C7_resolver_safe _ _ (Or.inr rfl), C7_resolver_safe _ _ (Or.inr rfl),
    C7_resolver_safe _ _ (Or.inr rfl), C7_resolver_safe _ _ (Or.inl rfl)⟩

theorem pySliceFrom_length (s : String) : pySliceFrom s s.length = "" := by
  unfold pySliceFrom
  rw [show s.length = s.data.length from rfl, List.drop_length]

/-- C9: over any run, at most 2 images are inserted, the inserted keywords
are an initial segment of the keyword list taken in order, and every image
fetch is attempted only right after a paragraph whose 1-based position is a
multiple of 3. -/
theorem C9_image_limits (chunks : List (Option String)) (streamErr : Option String)
    (kwRes : Except String (List String)) (prompt : String)
    (fetch : String → Option String) :
    (stream_generator chunks streamErr kwRes prompt fetch).inserted.length ≤ 2 ∧
      (stream_generator chunks streamErr kwRes prompt fetch).inserted
        = (usedKeywords kwRes prompt).take
            (stream_generator chunks streamErr kwRes prompt fetch).inserted.length ∧
      ∀ q kw, (q, kw) ∈ (stream_generator chunks streamErr kwRes prompt fetch).fetchAttempts →
        q % 3 = 0 := by
  cases streamErr with
  | some e =>
    refine ⟨by simp [stream_generator], by simp [stream_generator],
      fun q kw h => absurd h (by simp [stream_generator])⟩
  | none =>
    simp only [stream_generator, postStream]
    by_cases hk : usedKeywords kwRes prompt = []
    · simp [hk]
    · simp only [hk, if_neg, not_false_iff]
      refine ⟨?_, ?_, ?_⟩
      · have := embedLoop_inserted_length (usedKeywords kwRes prompt) fetch
          (splitParas (blogText chunks)) 0 0
        omega
      · have := embedLoop_inserted_take (usedKeywords kwRes prompt) fetch
          (splitParas (blogText chunks)) 0 0
        simpa using this
      · intro q kw h
        exact (embedLoop_attempts _ _ _ 0 0 q kw h).1

/-- C1 counterexample: a run whose blog text has three paragraphs and whose
keyword list is `["cat"]` with a successful lookup appends one final chunk,
and that chunk is Markdown glued to re-joined text, not a JSON list wrapped
between the sentinels: it does not even start with the opening marker. -/
theorem C1_counterexample :
    (stream_generator [some "Hello\n\nWorld\n\nFoo"] none (Except.ok ["cat"]) "p"
        (fun k => if k = "cat" then some "http://x/img.jpg" else none)).emitted
      = ["Hello\n\nWorld\n\nFoo", "\n\n\n\n![Cat](http://x/img.jpg)\n\n"] ∧
      List.isPrefixOf "<!--IMAGE_JSON_START-->".data
        "\n\n\n\n![Cat](http://x/img.jpg)\n\n".data = false :=
  ⟨by decide, by decide⟩

/-- C1 amended: when the keyword list is non-empty, exactly one final chunk
is appended after the token stream; it is the image-embedded re-joined text
with the first `len(full_blog_text)` characters sliced off (no sentinel
markers, no JSON), and the inserted keywords are an initial segment of the
keyword list, at most as many as there are keywords. -/
theorem C1_amended_final_chunk (chunks : List (Option String)) (kws : List String)
    (prompt : String) (fetch : String → Option String) (h : kws ≠ []) :
    (stream_generator chunks none (Except.ok kws) prompt fetch).emitted
      = relayEmitted chunks ++
          [pySliceFrom
            (String.intercalate "\n\n"
              (embedLoop kws fetch (splitParas (blogText chunks)) 0 0).parts)
            (blogText chunks).length] ∧
      (embedLoop kws fetch (splitParas (blogText chunks)) 0 0).inserted.length
        ≤ kws.length ∧
      (embedLoop kws fetch (splitParas (blogText chunks)) 0 0).inserted
        = kws.take
            (embedLoop kws fetch (splitParas (blogText chunks)) 0 0).inserted.length := by
  have ht := embedLoop_inserted_take kws fetch (splitParas (blogText chunks)) 0 0
  simp only [List.drop_zero] at ht
  refine ⟨?_, ?_, ht⟩
  · simp [stream_generator, postStream, usedKeywords, h]
  · have hlen := congrArg List.length ht
    rw [List.length_take] at hlen
    calc (embedLoop kws fetch (splitParas (blogText chunks)) 0 0).inserted.length
        = _ ⊓ kws.length := hlen
      _ ≤ kws.length := min_le_right _ _

/-- C1 amended witness: the amended statement at a concrete run. -/
theorem C1_amended_final_chunk_witness :
    (stream_generator [some "Hi"] none (Except.ok ["cat"]) "p"
        (fun _ => none)).emitted
      = relayEmitted [some "Hi"] ++
          [pySliceFrom
            (String.intercalate "\n\n"
              (embedLoop ["cat"] (fun _ => none)
                (splitParas (blogText [some "Hi"])) 0 0).parts)
            (blogText [some "Hi"]).length] ∧
      (embedLoop ["cat"] (fun _ => none)
          (splitParas (blogText [some "Hi"])) 0 0).inserted.length
        ≤ (["cat"] : List String).length ∧
      (embedLoop ["cat"] (fun _ => none)
          (splitParas (blogText [some "Hi"])) 0 0).inserted
        = (["cat"] : List String).take
            (embedLoop ["cat"] (fun _ => none)
              (splitParas (blogText [some "Hi"])) 0 0).inserted.length :=
  C1_amended_final_chunk [some "Hi"] ["cat"] "p" (fun _ => none) (by decide)

/-- C2 counterexample: the accumulated text of the first run ends with a
syntactically valid `\x7b"images": ["cat"]\x7d` object, yet the keyword the code
passes to the image provider is "hello" (from the prompt fallback), never
"cat"; the second run's text holds no `images` key at all, and an image is
still attempted.  No extraction from the text happens in either run. -/
theorem C2_counterexample :
    (stream_generator [some "A\n\nB\n\n\x7b\"images\": [\"cat\"]\x7d"] none
        (Except.error "boom") "hello world foo bar"
        (fun _ => none)).fetchAttempts = [(3, "hello")] ∧
      (stream_generator [some "A\n\nB\n\nC"] none (Except.ok ["dog"]) "p"
        (fun _ => none)).fetchAttempts = [(3, "dog")] :=
  ⟨by decide, by decide⟩

/-- C2 amended: no directive extraction exists.  Every keyword handed to the
image provider comes from `usedKeywords` (the second model call's list, or on
exception the prompt's first three whitespace-separated words) and never from
scanning the accumulated text; when that list is empty, no image is attempted
and nothing is appended after the blog text. -/
theorem C2_amended_no_extractor (chunks : List (Option String))
    (kwRes : Except String (List String)) (prompt : String)
    (fetch : String → Option String) :
    (∀ q kw, (q, kw) ∈ (stream_generator chunks none kwRes prompt fetch).fetchAttempts →
        kw ∈ usedKeywords kwRes prompt) ∧
      (usedKeywords kwRes prompt = [] →
        (stream_generator chunks none kwRes prompt fetch).fetchAttempts = [] ∧
          (stream_generator chunks none kwRes prompt fetch).emitted
            = relayEmitted chunks) := by
  constructor
  · intro q kw h
    by_cases hk : usedKeywords kwRes prompt = []
    · simp [stream_generator, postStream, hk] at h
    · simp only [stream_generator, postStream, hk, if_neg, not_false_iff] at h
      exact (embedLoop_attempts _ _ _ 0 0 q kw h).2
  · intro hk
    constructor
    · simp [stream_generator, postStream, hk]
    · simp [stream_generator, postStream, hk]

/-- C6 counterexample: a run whose accumulated text carries no directive (and
no JSON at all) still gets a non-empty chunk appended after the blog text, so
the stream does not end immediately after it. -/
theorem C6_counterexample :
    (stream_generator [some "Intro\n\nBody\n\nEnd"] none (Except.ok ["sky"]) "p"
        (fun k => if k = "sky" then some "http://img/sky.jpg" else none)).emitted
      = ["Intro\n\nBody\n\nEnd", "\n\n\n\n![Sky](http://img/sky.jpg)\n\n"] ∧
      ("\n\n\n\n![Sky](http://img/sky.jpg)\n\n" : String) ≠ "" :=
  ⟨by decide, by decide⟩

/-- C6 amended: whether a chunk follows the blog text is independent of any
directive in the text: the stream is always the relayed tokens followed by
the post-stream chunks, and those are empty exactly when the keyword list
(second model call, or prompt fallback) is empty; the already-streamed text
is unaffected either way. -/
theorem C6_amended_no_sentinel (chunks : List (Option String))
    (kwRes : Except String (List String)) (prompt : String)
    (fetch : String → Option String) :
    (stream_generator chunks none kwRes prompt fetch).emitted
      = relayEmitted chunks ++
          postStreamChunks (blogText chunks) (usedKeywords kwRes prompt) fetch ∧
      (postStreamChunks (blogText chunks) (usedKeywords kwRes prompt) fetch = []
        ↔ usedKeywords kwRes prompt = []) := by
  refine ⟨rfl, ?_⟩
  by_cases hk : usedKeywords kwRes prompt = []
  · simp [postStreamChunks, postStream, hk]
  · simp [postStreamChunks, postStream, hk]

/-- C8: when the keyword-extraction call raises, the keywords become the
prompt's first three whitespace-separated words, and for a non-blank prompt
that list is non-empty, so the image-embedding phase still runs and appends
its single chunk. -/
theorem C8_keyword_fallback (chunks : List (Option String)) (e : String)
    (prompt : String) (fetch : String → Option String)
    (h : pySplit prompt ≠ []) :
    usedKeywords (Except.error e) prompt = (pySplit prompt).take 3 ∧
      (stream_generator chunks none (Except.error e) prompt fetch).emitted
        = relayEmitted chunks ++
            postStreamChunks (blogText chunks) ((pySplit prompt).take 3) fetch ∧
      (postStreamChunks (blogText chunks) ((pySplit prompt).take 3) fetch).length
        = 1 := by
  have hne : (pySplit prompt).take 3 ≠ [] := by
    cases hp : pySplit prompt with
    | nil => exact absurd hp h
    | cons a l => simp
  refine ⟨rfl, rfl, ?_⟩
  simp [postStreamChunks, postStream, hne]

/-- C8 witness: the fallback at a concrete prompt and run. -/
theorem C8_keyword_fallback_witness :
    usedKeywords (Except.error "boom") "solar power tips now"
        = ["solar", "power", "tips"] ∧
      (postStreamChunks (blogText [some "A\n\nB\n\nC"])
        ((pySplit "solar power tips now").take 3) (fun _ => none)).length = 1 := by
  have h := C8_keyword_fallback [some "A\n\nB\n\nC"] "boom" "solar power tips now"
    (fun _ => none) (by decide)
  exact ⟨h.1.trans (by decide), h.2.2⟩

/-- C10: when every paragraph separator of the accumulated text is exactly
two newlines (the split/join round-trips) and no image lookup succeeds,
whatever is yielded after the token stream is the empty string, and the
delivered body equals the accumulated blog text exactly. -/
theorem C10_no_image_frame (chunks : List (Option String))
    (kwRes : Except String (List String)) (prompt : String)
    (fetch : String → Option String)
    (hsep : String.intercalate "\n\n" (splitParas (blogText chunks))
      = blogText chunks)
    (hf : ∀ k, fetch k = none) :
    (∀ s, s ∈ ((stream_generator chunks none kwRes prompt fetch).emitted).drop
        (relayEmitted chunks).length → s = "") ∧
      concatAll (stream_generator chunks none kwRes prompt fetch).emitted
        = blogText chunks := by
  by_cases hk : usedKeywords kwRes prompt = []
  · constructor
    · intro s hs
      simp only [stream_generator, postStream, hk, if_pos, List.append_nil] at hs
      rw [show (relayEmitted chunks) = (relayAux chunks "").1 from rfl,
        List.drop_length] at hs
      simp at hs
    · simp only [stream_generator, postStream, hk, if_pos, List.append_nil]
      exact concat_relayEmitted chunks
  · have hparts := (embedLoop_nofetch (usedKeywords kwRes prompt) fetch hf
      (splitParas (blogText chunks)) 0 0).1
    have hchunk : pySliceFrom
        (String.intercalate "\n\n"
          (embedLoop (usedKeywords kwRes prompt) fetch
            (splitParas (blogText chunks)) 0 0).parts)
        (blogText chunks).length = "" := by
      rw [hparts, hsep, pySliceFrom_length]
    constructor
    · intro s hs
      simp only [stream_generator, postStream, hk, if_neg, not_false_iff,
        hchunk, List.drop_left] at hs
      simpa using hs
    · simp only [stream_generator, postStream, hk, if_neg, not_false_iff, hchunk]
      rw [concatAll_append, concat_relayEmitted]
      show blogText chunks ++ ("" ++ "") = blogText chunks
      simp [String.append_empty]

/-- C10 witness: a concrete run with exact double-newline separators and an
always-failing image provider delivers exactly the blog text. -/
theorem C10_no_image_frame_witness :
    String.intercalate "\n\n" (splitParas (blogText [some "A\n\nB"]))
        = blogText [some "A\n\nB"] ∧
      concatAll (stream_generator [some "A\n\nB"] none (Except.ok ["cat"]) "p"
        (fun _ => none)).emitted = blogText [some "A\n\nB"] :=
  ⟨by decide,
    (C10_no_image_frame [some "A\n\nB"] (Except.ok ["cat"]) "p" (fun _ => none)
      (by decide) (fun _ => rfl)).2⟩

end BlogWriter
